import Mathlib

/-!
Verification development for the dual-channel network client of the
`atc_gui` application:

* `src/gui/atc_gui/utils/udp_client.py`     — class `UdpClient` (media channel)
* `src/gui/atc_gui/utils/network_manager.py`— class `NetworkManager` (supervisor)

Each Python method is embedded as a pure Lean function; a signal emission,
a log call or a call into one of the two channel clients is recorded as an
element of an explicit action list, and the mutable attributes of the two
objects are gathered in explicit state records.  Log message texts are
abstracted away (only the log level is kept); the identity of every emitted
signal and of every cross-object method call is kept.
-/

namespace Atc

/-- Log severity of a `logger.xxx(...)` call. -/
inductive LogLevel
  | debug
  | info
  | warning
  | error
deriving DecidableEq

/-- Attribute names of `UdpClient` that `network_manager.py` accesses.
(`NetworkManager` calls `connect`, `disconnect`, `is_connected`,
`start_streaming`, `stop_streaming` and subscribes to `frame_a_received`,
`frame_b_received`, `connection_status_changed`.) -/
inductive UdpMethod
  | connect
  | disconnect
  | is_connected
  | start_streaming
  | stop_streaming
  | connection_status_changed
  | frame_a_received
  | frame_b_received
deriving DecidableEq

/-- Which of those attributes class `UdpClient`
(src/gui/atc_gui/utils/udp_client.py lines 11-90) actually defines: the
class body defines only the signals `frame_a_received`, `frame_b_received`
and the methods `connect`, `disconnect`, `_receive_frames`, and `__init__`
assigns `settings`, `socket`, `is_running`, `receive_thread`.  There is no
`is_connected`, no `start_streaming`, no `stop_streaming` and no
`connection_status_changed` anywhere in the file. -/
def udpDefined : UdpMethod → Bool
  | UdpMethod.connect => true
  | UdpMethod.disconnect => true
  | UdpMethod.frame_a_received => true
  | UdpMethod.frame_b_received => true
  | UdpMethod.is_connected => false
  | UdpMethod.start_streaming => false
  | UdpMethod.stop_streaming => false
  | UdpMethod.connection_status_changed => false

/-- The `UdpClient` signals that `NetworkManager._connect_signals`
(network_manager.py lines 57-62) subscribes to. -/
def nmSubscribedUdpSignals : List UdpMethod :=
  [ UdpMethod.frame_a_received, UdpMethod.frame_b_received,
    UdpMethod.connection_status_changed ]

/-- Methods of `TcpClient` that `NetworkManager` calls.  `TcpClient`
(utils/tcp_client.py) is not among the source files; the supervisor only
invokes it, so the calls are recorded by name. -/
inductive TcpMethod
  | connect_to_server
  | disconnect_from_server
  | is_connected
  | request_cctv_a
  | request_cctv_b
  | request_object_detail
  | request_map
deriving DecidableEq

/-- Mutable attributes of a `UdpClient` object.  `socket` is `true` when
`self.socket` is not `None`; `is_running` is the loop flag.  The
`streaming` field does not correspond to any attribute in
udp_client.py — see `udp_start_streaming`. -/
structure UdpState where
  socket : Bool
  is_running : Bool
  streaming : Bool
deriving DecidableEq

/-- Observable effects of a `UdpClient` operation: the two frame signals it
defines, the connection-status signal the spec describes (shape
`(connected, reason)`), and log calls. -/
inductive UdpEvent
  | emitFrameA
  | emitFrameB
  | statusChanged (connected : Bool) (reason : String)
  | log (lvl : LogLevel)
deriving DecidableEq

/-- `UdpClient.connect` (udp_client.py lines 25-42): create the socket, bind
it (`bindOk` says whether the bind raises), set `is_running`, start the
receive thread, log, and return a `Bool`.  On a bind failure the exception
is caught, an error is logged and `False` is returned; `is_running` is not
set.  No status signal is emitted on either path. -/
def udpConnect (bindOk : Bool) (s : UdpState) : UdpState × List UdpEvent × Bool :=
  if bindOk then
    ({ s with socket := true, is_running := true },
     [ UdpEvent.log LogLevel.info ], true)
  else
    ({ s with socket := true },
     [ UdpEvent.log LogLevel.error ], false)

/-- `UdpClient.disconnect` (udp_client.py lines 44-50): clear `is_running`,
close and drop the socket, log.  No status signal is emitted. -/
def udpDisconnect (s : UdpState) : UdpState × List UdpEvent :=
  ({ s with is_running := false, socket := false },
   [ UdpEvent.log LogLevel.info ])

/-- Modelled from the spec: `UdpClient.is_connected` is called by
network_manager.py but is absent from src/gui/atc_gui/utils/udp_client.py.
Spec section 4.3 specifies a non-blocking snapshot of the current state,
taken here to be the `is_running` flag. -/
def udp_is_connected (s : UdpState) : Bool :=
  s.is_running

/-- Modelled from the spec: `UdpClient.start_streaming` is called by
network_manager.py but is absent from udp_client.py.  Spec section 4.3
describes a logical gate controlling whether received frames are forwarded
to subscribers; this sets the gate. -/
def udp_start_streaming (s : UdpState) : UdpState :=
  { s with streaming := true }

/-- Modelled from the spec: `UdpClient.stop_streaming` is called by
network_manager.py but is absent from udp_client.py.  Spec section 4.3
describes a logical gate controlling whether received frames are forwarded
to subscribers; this clears the gate. -/
def udp_stop_streaming (s : UdpState) : UdpState :=
  { s with streaming := false }

/-- Python `bytes.split(sep)` on byte lists, with fuel (the fuel
`data.length` always suffices, since every step consumes at least one
byte).  Left-to-right, non-overlapping occurrences, exactly the CPython
semantics for a non-empty separator. -/
def pySplitGo (sep : List Nat) : Nat → List Nat → List (List Nat)
  | _, [] => [[]]
  | 0, d :: ds => [d :: ds]
  | fuel + 1, d :: ds =>
    if sep.isPrefixOf (d :: ds) && !sep.isEmpty then
      [] :: pySplitGo sep fuel ((d :: ds).drop sep.length)
    else
      match pySplitGo sep fuel ds with
      | [] => [[d]]
      | p :: ps => (d :: p) :: ps

/-- `data.split(sep)` of udp_client.py line 60. -/
def pySplit (sep data : List Nat) : List (List Nat) :=
  pySplitGo sep data.length data

/-- One iteration of the body of `UdpClient._receive_frames`
(udp_client.py lines 54-90) after `recvfrom` returned `data`.

* `parts = data.split(sep)`; if `len(parts) != 2` the iteration `continue`s
  with no signal and no log;
* `camera_id.decode(utf-8)` may raise; the bare `except` at line 88 turns
  that into an error log;
* `cv2.imdecode` (abstracted as `imdec`) returning `None` skips the whole
  emission block silently;
* a decoded frame is routed by camera id: `A` and `B` emit their signal,
  anything else logs a warning and emits nothing. -/
def processDatagram (sep : List Nat) (utf8 : List Nat → Option String)
    (imdec : List Nat → Option Unit) (data : List Nat) : List UdpEvent :=
  match pySplit sep data with
  | [camera_id, image_data] =>
    match utf8 camera_id with
    | none => [ UdpEvent.log LogLevel.error ]
    | some cid =>
      match imdec image_data with
      | none => []
      | some _ =>
        if cid = "A" then [ UdpEvent.emitFrameA ]
        else if cid = "B" then [ UdpEvent.emitFrameB ]
        else [ UdpEvent.log LogLevel.warning ]
  | _ => []

/-- Result of the blocking `socket.recvfrom` call: a datagram, or a raised
exception (`OSError` on a closed socket, `AttributeError` when
`self.socket` is already `None`, ...). -/
inductive RecvResult
  | ok (data : List Nat)
  | err
deriving DecidableEq

/-- Outcome of one pass through the `while self.is_running` loop of
`_receive_frames`: the loop exits (condition false), an exception escapes
the body (`crashed` — the `try/except Exception` wrapping the whole body
makes this unreachable), or the body completes and the loop iterates
again having produced `events`. -/
inductive LoopOutcome
  | exited
  | crashed
  | continued (events : List UdpEvent)
deriving DecidableEq

/-- One pass through the receive loop of `_receive_frames`
(udp_client.py lines 52-90): check `is_running`; if still running, receive
(a raised receive error is caught by the bare `except` and logged) and
process the datagram. -/
def receiveLoopStep (sep : List Nat) (utf8 : List Nat → Option String)
    (imdec : List Nat → Option Unit) (is_running : Bool)
    (recv : RecvResult) : LoopOutcome :=
  if is_running then
    match recv with
    | RecvResult.err => LoopOutcome.continued [ UdpEvent.log LogLevel.error ]
    | RecvResult.ok data => LoopOutcome.continued (processDatagram sep utf8 imdec data)
  else LoopOutcome.exited

/-- Concrete UTF-8 decoder stub used for concrete evaluations: byte 65 is
the string `A`, byte 66 is `B`, byte 67 is `C`, everything else fails. -/
def utf8Stub (b : List Nat) : Option String :=
  if b = [ 65 ] then some strA
  else if b = [ 66 ] then some strB
  else if b = [ 67 ] then some strC
  else none
where
  strA : String := "A"
  strB : String := "B"
  strC : String := "C"

/-- Concrete image decoder stub for concrete evaluations: every payload
decodes. -/
def imdecStub (_ : List Nat) : Option Unit :=
  some ()

/-- Mutable state of a `NetworkManager` object (network_manager.py):
`tcp` is the control-channel connectivity snapshot answered by
`tcp_client.is_connected()` (the `TcpClient` itself is not among the source
files; per spec section 4.2 it is `true` between a `Connected` lifecycle
event and the next disconnect/error), `udp` is the owned `UdpClient`,
`timerArmed` is whether `self.reconnect_timer` is active, and
`reconnect_attempts` is `self.reconnect_attempts`. -/
structure NMState where
  tcp : Bool
  udp : UdpState
  timerArmed : Bool
  reconnect_attempts : Nat
deriving DecidableEq

/-- Observable effects of a `NetworkManager` method: calls into the two
channel clients, emissions of the `tcp_connection_status_changed` signal,
log calls, and timer manipulation. -/
inductive NMAction
  | tcpCall (m : TcpMethod)
  | udpCall (m : UdpMethod)
  | emitTcpStatus (connected : Bool)
  | logMsg (lvl : LogLevel)
  | timerStart
  | timerStop
deriving DecidableEq

/-- `NetworkManager.start_services` (lines 65-69): log and initiate the
control-channel connect (asynchronous, state observed via events). -/
def start_services (s : NMState) : NMState × List NMAction :=
  (s, [ NMAction.logMsg LogLevel.info, NMAction.tcpCall TcpMethod.connect_to_server ])

/-- `NetworkManager.stop_services` (lines 70-74): log, disconnect the
control channel, disconnect the media channel.  The reconnect timer is not
touched. -/
def stop_services (s : NMState) : NMState × List NMAction :=
  ({ s with tcp := false, udp := (udpDisconnect s.udp).1 },
   [ NMAction.logMsg LogLevel.info,
     NMAction.tcpCall TcpMethod.disconnect_from_server,
     NMAction.udpCall UdpMethod.disconnect ])

/-- `NetworkManager._attempt_reconnect` (lines 76-92), the reconnect-timer
slot: if the attempt count has reached `max_reconnect_attempts`, log a
warning, stop the timer and return; otherwise log, increment the count,
reconnect the control channel if it is down, and reconnect the media
channel if it is down (the media-side `is_connected` is `udp_is_connected`
and the bind is assumed to succeed; the bind outcome does not affect the
timer or the counter). -/
def attempt_reconnect (maxAttempts : Nat) (s : NMState) : NMState × List NMAction :=
  if maxAttempts ≤ s.reconnect_attempts then
    ({ s with timerArmed := false },
     [ NMAction.logMsg LogLevel.warning, NMAction.timerStop ])
  else
    ({ s with
        reconnect_attempts := s.reconnect_attempts + 1,
        udp := if udp_is_connected s.udp then s.udp else (udpConnect true s.udp).1 },
     NMAction.logMsg LogLevel.info ::
       ((NMAction.tcpCall TcpMethod.is_connected ::
          (if s.tcp then [] else [ NMAction.tcpCall TcpMethod.connect_to_server ])) ++
        (NMAction.udpCall UdpMethod.is_connected ::
          (if udp_is_connected s.udp then [] else [ NMAction.udpCall UdpMethod.connect ]))))

/-- `NetworkManager._on_tcp_connected` (lines 94-98): emit the status
signal, stop the reconnect timer, zero the attempt count. -/
def on_tcp_connected (s : NMState) : NMState × List NMAction :=
  ({ s with tcp := true, timerArmed := false, reconnect_attempts := 0 },
   [ NMAction.emitTcpStatus true, NMAction.timerStop ])

/-- `NetworkManager._on_tcp_disconnected` (lines 100-102): emit the status
signal. -/
def on_tcp_disconnected (s : NMState) : NMState × List NMAction :=
  ({ s with tcp := false },
   [ NMAction.emitTcpStatus false ])

/-- `NetworkManager._on_tcp_connection_error` (lines 104-108): emit the
status signal, zero the attempt count, start the reconnect timer. -/
def on_tcp_connection_error (s : NMState) : NMState × List NMAction :=
  ({ s with tcp := false, reconnect_attempts := 0, timerArmed := true },
   [ NMAction.emitTcpStatus false, NMAction.timerStart ])

/-- `NetworkManager._handle_object_detected` (lines 110-113): re-emit each
object of the batch individually, in loop order.  The returned list is the
sequence of `object_detected` payloads in emission order. -/
def handle_object_detected {α : Type} (objects : List α) : List α :=
  List.foldl (fun emitted obj => emitted ++ [ obj ]) [] objects

/-- `NetworkManager._handle_map_response` (lines 115-120): log only. -/
def handle_map_response (r : String) (s : NMState) : NMState × List NMAction :=
  if r.startsWith okResponse then (s, [ NMAction.logMsg LogLevel.info ])
  else (s, [ NMAction.logMsg LogLevel.error ])
where
  okResponse : String := "OK"

/-- `NetworkManager._handle_cctv_a_response` (lines 122-130): on `OK`, log,
connect the media channel if it is down, and start streaming; on anything
else, log an error and touch nothing.  (`is_connected`/`start_streaming`
on the media side are `udp_is_connected`/`udp_start_streaming`; the bind is
assumed to succeed.) -/
def handle_cctv_a_response (r : String) (s : NMState) : NMState × List NMAction :=
  if r = "OK" then
    let udp1 := if udp_is_connected s.udp then s.udp else (udpConnect true s.udp).1
    ({ s with udp := udp_start_streaming udp1 },
     NMAction.logMsg LogLevel.info ::
       (NMAction.udpCall UdpMethod.is_connected ::
         ((if udp_is_connected s.udp then [] else [ NMAction.udpCall UdpMethod.connect ]) ++
          [ NMAction.udpCall UdpMethod.start_streaming ])))
  else
    (s, [ NMAction.logMsg LogLevel.error ])

/-- `NetworkManager._handle_cctv_b_response` (lines 132-140): identical to
the A handler. -/
def handle_cctv_b_response (r : String) (s : NMState) : NMState × List NMAction :=
  if r = "OK" then
    let udp1 := if udp_is_connected s.udp then s.udp else (udpConnect true s.udp).1
    ({ s with udp := udp_start_streaming udp1 },
     NMAction.logMsg LogLevel.info ::
       (NMAction.udpCall UdpMethod.is_connected ::
         ((if udp_is_connected s.udp then [] else [ NMAction.udpCall UdpMethod.connect ]) ++
          [ NMAction.udpCall UdpMethod.start_streaming ])))
  else
    (s, [ NMAction.logMsg LogLevel.error ])

/-- `NetworkManager.request_cctv_a` (lines 143-147): connect the media
channel if it is down, then send the control-channel request. -/
def request_cctv_a (s : NMState) : NMState × List NMAction :=
  ({ s with udp := if udp_is_connected s.udp then s.udp else (udpConnect true s.udp).1 },
   NMAction.udpCall UdpMethod.is_connected ::
     ((if udp_is_connected s.udp then [] else [ NMAction.udpCall UdpMethod.connect ]) ++
      [ NMAction.tcpCall TcpMethod.request_cctv_a ]))

/-- `NetworkManager.request_cctv_b` (lines 149-153): identical to A. -/
def request_cctv_b (s : NMState) : NMState × List NMAction :=
  ({ s with udp := if udp_is_connected s.udp then s.udp else (udpConnect true s.udp).1 },
   NMAction.udpCall UdpMethod.is_connected ::
     ((if udp_is_connected s.udp then [] else [ NMAction.udpCall UdpMethod.connect ]) ++
      [ NMAction.tcpCall TcpMethod.request_cctv_b ]))

/-- `NetworkManager.request_object_detail` (lines 155-156). -/
def request_object_detail (s : NMState) : NMState × List NMAction :=
  (s, [ NMAction.tcpCall TcpMethod.request_object_detail ])

/-- `NetworkManager.request_map` (lines 158-163): send the control-channel
request, then stop media streaming (`if self.udp_client:` is always truthy
for the owned client object; `stop_streaming` is `udp_stop_streaming`). -/
def request_map (s : NMState) : NMState × List NMAction :=
  ({ s with udp := udp_stop_streaming s.udp },
   [ NMAction.tcpCall TcpMethod.request_map, NMAction.udpCall UdpMethod.stop_streaming ])

/-- External stimuli the `NetworkManager` reacts to: the reconnect timer
firing, the three control-channel lifecycle events, the start/stop entry
points, the three control-channel responses, and the four request entry
points. -/
inductive NMEvent
  | timerFire
  | tcpConnectedEv
  | tcpDisconnectedEv
  | tcpErrorEv
  | startEv
  | stopEv
  | cctvARespEv (r : String)
  | cctvBRespEv (r : String)
  | mapRespEv (r : String)
  | reqMapEv
  | reqCctvAEv
  | reqCctvBEv
  | reqDetailEv
deriving DecidableEq

/-- Dispatch of one stimulus to the corresponding `NetworkManager`
handler. -/
def nmStep (maxAttempts : Nat) : NMEvent → NMState → NMState × List NMAction
  | NMEvent.timerFire, s => attempt_reconnect maxAttempts s
  | NMEvent.tcpConnectedEv, s => on_tcp_connected s
  | NMEvent.tcpDisconnectedEv, s => on_tcp_disconnected s
  | NMEvent.tcpErrorEv, s => on_tcp_connection_error s
  | NMEvent.startEv, s => start_services s
  | NMEvent.stopEv, s => stop_services s
  | NMEvent.cctvARespEv r, s => handle_cctv_a_response r s
  | NMEvent.cctvBRespEv r, s => handle_cctv_b_response r s
  | NMEvent.mapRespEv r, s => handle_map_response r s
  | NMEvent.reqMapEv, s => request_map s
  | NMEvent.reqCctvAEv, s => request_cctv_a s
  | NMEvent.reqCctvBEv, s => request_cctv_b s
  | NMEvent.reqDetailEv, s => request_object_detail s

/-- State reached after a sequence of stimuli. -/
def nmRun (maxAttempts : Nat) (s : NMState) : List NMEvent → NMState
  | [] => s
  | e :: es => nmRun maxAttempts ((nmStep maxAttempts e s).1) es

/-- A stimulus sequence is admissible when every `timerFire` in it occurs
at a state where the reconnect timer is armed (a stopped `QTimer` does not
fire). -/
def admissible (maxAttempts : Nat) : NMState → List NMEvent → Bool
  | _, [] => true
  | s, e :: es =>
    (match e with
     | NMEvent.timerFire => s.timerArmed
     | _ => true) &&
    admissible maxAttempts ((nmStep maxAttempts e s).1) es

/-- An action is a connect attempt on either channel. -/
def isConnectCall : NMAction → Bool
  | NMAction.tcpCall TcpMethod.connect_to_server => true
  | NMAction.udpCall UdpMethod.connect => true
  | _ => false

/-- An action is a signal emission to subscribers. -/
def isEmitAction : NMAction → Bool
  | NMAction.emitTcpStatus _ => true
  | _ => false

/-- An action is a call into the media channel client. -/
def isUdpCallAction : NMAction → Bool
  | NMAction.udpCall _ => true
  | _ => false

/-- A media-channel event is a frame-signal emission. -/
def isFrameEmit : UdpEvent → Bool
  | UdpEvent.emitFrameA => true
  | UdpEvent.emitFrameB => true
  | _ => false

/-- A media-channel event is a warning-level log. -/
def isWarnLog : UdpEvent → Bool
  | UdpEvent.log LogLevel.warning => true
  | _ => false

/-- A media-channel event is a connection-status emission. -/
def isStatusEvent : UdpEvent → Bool
  | UdpEvent.statusChanged _ _ => true
  | _ => false

/-- The approval payload the server sends on a granted CCTV request. -/
def okResponse : String := "OK"

/-- A denial payload (anything other than the approval payload). -/
def deniedResponse : String := "NO"

/-- Helper: among all stimuli, only a control-channel connection error can
arm the reconnect timer — every other handler either leaves `timerArmed`
alone or clears it. -/
theorem nmStep_unarmed (maxAttempts : Nat) (e : NMEvent) (s : NMState)
    (he : e ≠ NMEvent.tcpErrorEv) (hs : s.timerArmed = false) :
    ((nmStep maxAttempts e s).1).timerArmed = false := by
  cases e <;>
    simp_all [nmStep, attempt_reconnect, on_tcp_connected, on_tcp_disconnected,
      on_tcp_connection_error, start_services, stop_services,
      handle_cctv_a_response, handle_cctv_b_response, handle_map_response,
      request_map, request_cctv_a, request_cctv_b, request_object_detail,
      udpDisconnect, udpConnect, udp_is_connected, udp_start_streaming,
      udp_stop_streaming] <;>
    split <;> simp_all

/-- C1 (amended): on a timer fire with the attempt count below
`max_attempts` the count increases by exactly 1; a fire with the count at
or above `max_attempts` leaves the count unchanged, makes no connect
attempts on either channel, and stops the timer; the count resets to 0 on
any successful control-channel connect (which also stops the timer); and
once the timer is not armed, no timer fires (hence no timer-driven connect
attempts) occur in any admissible stimulus sequence free of
control-channel connection-error events. -/
theorem C1_amended (maxAttempts : Nat) :
    (∀ s : NMState, s.reconnect_attempts < maxAttempts →
      ((nmStep maxAttempts NMEvent.timerFire s).1).reconnect_attempts
        = s.reconnect_attempts + 1) ∧
    (∀ s : NMState, maxAttempts ≤ s.reconnect_attempts →
      ((nmStep maxAttempts NMEvent.timerFire s).1).reconnect_attempts
          = s.reconnect_attempts ∧
      ((nmStep maxAttempts NMEvent.timerFire s).1).timerArmed = false ∧
      List.filter isConnectCall ((nmStep maxAttempts NMEvent.timerFire s).2) = []) ∧
    (∀ s : NMState,
      ((nmStep maxAttempts NMEvent.tcpConnectedEv s).1).reconnect_attempts = 0 ∧
      ((nmStep maxAttempts NMEvent.tcpConnectedEv s).1).timerArmed = false) ∧
    (∀ (s : NMState) (es : List NMEvent), admissible maxAttempts s es = true →
      s.timerArmed = false → NMEvent.tcpErrorEv ∉ es → NMEvent.timerFire ∉ es) := by
  refine ⟨?_, ?_, ?_, ?_⟩
  · intro s h
    simp only [nmStep, attempt_reconnect, if_neg (Nat.not_le.mpr h)]
  · intro s h
    simp [nmStep, attempt_reconnect, if_pos h, isConnectCall]
  · intro s
    exact ⟨rfl, rfl⟩
  · intro s es
    induction es generalizing s with
    | nil => intro _ _ _; simp
    | cons e es ih =>
      intro hadm hun hne
      simp only [admissible, Bool.and_eq_true] at hadm
      obtain ⟨hg, hrest⟩ := hadm
      have hne1 : e ≠ NMEvent.tcpErrorEv := by
        intro h; exact hne (by simp [h])
      have hne2 : NMEvent.tcpErrorEv ∉ es := by
        intro h; exact hne (List.mem_cons_of_mem _ h)
      by_cases hf : e = NMEvent.timerFire
      · subst hf
        simp [hun] at hg
      · have hun2 := nmStep_unarmed maxAttempts e s hne1 hun
        have hrec := ih ((nmStep maxAttempts e s).1) hrest hun2 hne2
        intro hmem
        rcases List.mem_cons.mp hmem with h1 | h2
        · exact hf h1.symm
        · exact hrec h2

/-- C1 (counterexample): with `max_attempts = 1` and an armed timer, two
timer fires are admissible, but the count after the second fire is still
1, not 2 — the exhaustion fire does not increase the attempt count, so "on
every reconnect timer fire the count strictly increases by 1" fails. -/
theorem C1_cex :
    admissible 1 (⟨false, ⟨false, false, false⟩, true, 0⟩ : NMState)
        [ NMEvent.timerFire, NMEvent.timerFire ] = true ∧
    (nmRun 1 (⟨false, ⟨false, false, false⟩, true, 0⟩ : NMState)
        [ NMEvent.timerFire ]).reconnect_attempts = 1 ∧
    (nmRun 1 (⟨false, ⟨false, false, false⟩, true, 0⟩ : NMState)
        [ NMEvent.timerFire, NMEvent.timerFire ]).reconnect_attempts = 1 := by
  decide

/-- C1 (witness): concrete instances of every conjunct of `C1_amended`. -/
theorem C1_w :
    ((⟨false, ⟨false, false, false⟩, true, 0⟩ : NMState).reconnect_attempts < 2 ∧
      ((nmStep 2 NMEvent.timerFire
          (⟨false, ⟨false, false, false⟩, true, 0⟩ : NMState)).1).reconnect_attempts
        = (⟨false, ⟨false, false, false⟩, true, 0⟩ : NMState).reconnect_attempts + 1) ∧
    (2 ≤ (⟨false, ⟨false, false, false⟩, true, 2⟩ : NMState).reconnect_attempts ∧
      ((nmStep 2 NMEvent.timerFire
          (⟨false, ⟨false, false, false⟩, true, 2⟩ : NMState)).1).timerArmed = false) ∧
    ((nmStep 2 NMEvent.tcpConnectedEv
        (⟨false, ⟨false, false, false⟩, true, 2⟩ : NMState)).1).reconnect_attempts = 0 ∧
    (admissible 2 (⟨false, ⟨false, false, false⟩, false, 0⟩ : NMState)
        [ NMEvent.stopEv, NMEvent.startEv ] = true ∧
      NMEvent.tcpErrorEv ∉ [ NMEvent.stopEv, NMEvent.startEv ] ∧
      NMEvent.timerFire ∉ [ NMEvent.stopEv, NMEvent.startEv ]) := by
  refine ⟨⟨by decide, (C1_amended 2).1
            (⟨false, ⟨false, false, false⟩, true, 0⟩ : NMState) (by decide)⟩,
          ⟨by decide, ((C1_amended 2).2.1
            (⟨false, ⟨false, false, false⟩, true, 2⟩ : NMState) (by decide)).2.1⟩,
          ((C1_amended 2).2.2.1
            (⟨false, ⟨false, false, false⟩, true, 2⟩ : NMState)).1,
          by decide, by decide,
          (C1_amended 2).2.2.2
            (⟨false, ⟨false, false, false⟩, false, 0⟩ : NMState)
            [ NMEvent.stopEv, NMEvent.startEv ]
            (by decide) (by decide) (by decide)⟩

/-- C2 (amended): `stop_services` disconnects both channels but does not
touch the reconnect timer: the timer's armed state is exactly what it was
before the call. -/
theorem C2_amended (maxAttempts : Nat) (s : NMState) :
    ((nmStep maxAttempts NMEvent.stopEv s).1).tcp = false ∧
    ((nmStep maxAttempts NMEvent.stopEv s).1).udp.is_running = false ∧
    ((nmStep maxAttempts NMEvent.stopEv s).1).timerArmed = s.timerArmed ∧
    (nmStep maxAttempts NMEvent.stopEv s).2
      = [ NMAction.logMsg LogLevel.info,
          NMAction.tcpCall TcpMethod.disconnect_from_server,
          NMAction.udpCall UdpMethod.disconnect ] := by
  exact ⟨rfl, rfl, rfl, rfl⟩

/-- C2 (counterexample): calling `stop_services` with the reconnect timer
armed leaves it armed; a subsequent (admissible) timer fire issues a fresh
control-channel connect attempt — the claim that no reconnect timer fire
can occur after `stop_services` fails. -/
theorem C2_cex :
    ((nmStep 2 NMEvent.stopEv
        (⟨true, ⟨true, true, false⟩, true, 0⟩ : NMState)).1).timerArmed = true ∧
    admissible 2 (⟨true, ⟨true, true, false⟩, true, 0⟩ : NMState)
        [ NMEvent.stopEv, NMEvent.timerFire ] = true ∧
    (NMAction.tcpCall TcpMethod.connect_to_server) ∈
      (nmStep 2 NMEvent.timerFire
        ((nmStep 2 NMEvent.stopEv
          (⟨true, ⟨true, true, false⟩, true, 0⟩ : NMState)).1)).2 := by
  decide

/-- C3 (amended): a timer fire that finds the count at or above the
maximum stops the timer, leaves the count unchanged, and produces exactly
a warning-level log plus the timer stop — no signal is emitted to
subscribers. -/
theorem C3_amended (maxAttempts : Nat) (s : NMState)
    (h : maxAttempts ≤ s.reconnect_attempts) :
    ((nmStep maxAttempts NMEvent.timerFire s).1).timerArmed = false ∧
    ((nmStep maxAttempts NMEvent.timerFire s).1).reconnect_attempts
        = s.reconnect_attempts ∧
    (nmStep maxAttempts NMEvent.timerFire s).2
      = [ NMAction.logMsg LogLevel.warning, NMAction.timerStop ] ∧
    List.filter isEmitAction ((nmStep maxAttempts NMEvent.timerFire s).2) = [] := by
  simp [nmStep, attempt_reconnect, if_pos h, isEmitAction]

/-- C3 (counterexample): at the exhaustion fire the produced actions are
exactly a warning log and the timer stop; no subscriber-visible status
event is among them, so "surfaced to subscribers as a status event (not
merely an internal log line)" fails. -/
theorem C3_cex :
    (nmStep 2 NMEvent.timerFire
        (⟨false, ⟨false, false, false⟩, true, 2⟩ : NMState)).2
      = [ NMAction.logMsg LogLevel.warning, NMAction.timerStop ] ∧
    List.filter isEmitAction
        ((nmStep 2 NMEvent.timerFire
          (⟨false, ⟨false, false, false⟩, true, 2⟩ : NMState)).2) = [] := by
  decide

/-- C3 (witness): concrete instance of `C3_amended`. -/
theorem C3_w :
    2 ≤ (⟨false, ⟨false, false, false⟩, true, 2⟩ : NMState).reconnect_attempts ∧
    (nmStep 2 NMEvent.timerFire
        (⟨false, ⟨false, false, false⟩, true, 2⟩ : NMState)).2
      = [ NMAction.logMsg LogLevel.warning, NMAction.timerStop ] := by
  exact ⟨by decide, (C3_amended 2 _ (by decide)).2.2.1⟩

/-- C4 (amended): a timer fire with the attempt count below the maximum
does call `connect()` on the media channel whenever the media channel is
not connected, and the media channel's state changes as a result. -/
theorem C4_amended (maxAttempts : Nat) (s : NMState)
    (h1 : s.reconnect_attempts < maxAttempts) (h2 : s.udp.is_running = false) :
    (NMAction.udpCall UdpMethod.connect) ∈
        (nmStep maxAttempts NMEvent.timerFire s).2 ∧
    ((nmStep maxAttempts NMEvent.timerFire s).1).udp.is_running = true := by
  simp only [nmStep, attempt_reconnect, if_neg (Nat.not_le.mpr h1),
    udp_is_connected, h2]
  constructor
  · simp
  · simp [udpConnect]

/-- C4 (counterexample): a timer fire from a state with the control
channel up but the media channel down still emits a media-channel
`connect()` call and changes the media channel's state — "a reconnect
timer fire never calls connect() on the media channel" fails. -/
theorem C4_cex :
    (NMAction.udpCall UdpMethod.connect) ∈
      (nmStep 3 NMEvent.timerFire
        (⟨true, ⟨false, false, false⟩, true, 0⟩ : NMState)).2 ∧
    ((nmStep 3 NMEvent.timerFire
        (⟨true, ⟨false, false, false⟩, true, 0⟩ : NMState)).1).udp
      ≠ (⟨true, ⟨false, false, false⟩, true, 0⟩ : NMState).udp := by
  decide

/-- C4 (witness): concrete instance of `C4_amended`. -/
theorem C4_w :
    (⟨true, ⟨false, false, false⟩, true, 0⟩ : NMState).reconnect_attempts < 3 ∧
    (⟨true, ⟨false, false, false⟩, true, 0⟩ : NMState).udp.is_running = false ∧
    (NMAction.udpCall UdpMethod.connect) ∈
      (nmStep 3 NMEvent.timerFire
        (⟨true, ⟨false, false, false⟩, true, 0⟩ : NMState)).2 := by
  exact ⟨by decide, by decide, (C4_amended 3 _ (by decide) (by decide)).1⟩

/-- C5 (amended): a datagram that does not split into exactly two parts
around the separator yields no signal and no log at all (it is dropped
silently); a datagram whose decoded camera id is neither `A` nor `B`
yields no frame signal, and yields a warning-level log exactly when its
payload decodes to a valid image (and nothing at all when the payload
fails to decode); in every case nothing is raised and the receive loop
continues. -/
theorem C5_amended (sep : List Nat) (utf8 : List Nat → Option String)
    (imdec : List Nat → Option Unit) (data : List Nat) :
    ((pySplit sep data).length ≠ 2 → processDatagram sep utf8 imdec data = []) ∧
    (∀ camera_id image_data cid,
      pySplit sep data = [ camera_id, image_data ] →
      utf8 camera_id = some cid → cid ≠ "A" → cid ≠ "B" →
      (List.filter isFrameEmit (processDatagram sep utf8 imdec data) = [] ∧
       (imdec image_data = none → processDatagram sep utf8 imdec data = []) ∧
       (∀ u : Unit, imdec image_data = some u →
         processDatagram sep utf8 imdec data
           = [ UdpEvent.log LogLevel.warning ]))) ∧
    receiveLoopStep sep utf8 imdec true (RecvResult.ok data) ≠ LoopOutcome.exited ∧
    receiveLoopStep sep utf8 imdec true (RecvResult.ok data) ≠ LoopOutcome.crashed := by
  refine ⟨?_, ?_, ?_, ?_⟩
  · intro h
    unfold processDatagram
    rcases hs : pySplit sep data with _ | ⟨a, _ | ⟨b, _ | ⟨c, t⟩⟩⟩ <;> simp_all
  · intro camera_id image_data cid hsplit hutf8 hA hB
    refine ⟨?_, ?_, ?_⟩
    · rcases him : imdec image_data with _ | u
      · simp [processDatagram, hsplit, hutf8, him]
      · simp [processDatagram, hsplit, hutf8, him, if_neg hA, if_neg hB, isFrameEmit]
    · intro h
      simp [processDatagram, hsplit, hutf8, h]
    · intro u h
      simp [processDatagram, hsplit, hutf8, h, if_neg hA, if_neg hB]
  · simp [receiveLoopStep]
  · simp [receiveLoopStep]

/-- C5 (counterexample): the datagram `AB` with separator byte 124 does
not contain the separator, so it does not split into two parts; the code
drops it with no log of any level — in particular no warning — so "drops
the datagram with a warning-level log" fails for bad-split datagrams. -/
theorem C5_cex :
    (pySplit [ 124 ] [ 65, 66 ]).length ≠ 2 ∧
    processDatagram [ 124 ] utf8Stub imdecStub [ 65, 66 ] = [] ∧
    List.filter isWarnLog
        (processDatagram [ 124 ] utf8Stub imdecStub [ 65, 66 ]) = [] := by
  decide

/-- C5 (witness): the datagram `C|x` splits into two parts, its camera id
decodes to `C` (unknown), its payload decodes, and `C5_amended` yields the
warning-only outcome. -/
theorem C5_w :
    pySplit [ 124 ] [ 67, 124, 120 ] = [ [ 67 ], [ 120 ] ] ∧
    utf8Stub [ 67 ] = some utf8Stub.strC ∧
    utf8Stub.strC ≠ "A" ∧ utf8Stub.strC ≠ "B" ∧
    imdecStub [ 120 ] = some () ∧
    processDatagram [ 124 ] utf8Stub imdecStub [ 67, 124, 120 ]
      = [ UdpEvent.log LogLevel.warning ] := by
  refine ⟨by decide, by decide, by decide, by decide, rfl, ?_⟩
  exact ((C5_amended [ 124 ] utf8Stub imdecStub [ 67, 124, 120 ]).2.1
    [ 67 ] [ 120 ] utf8Stub.strC (by decide) (by decide) (by decide)
    (by decide)).2.2 () rfl

/-- C6 (code bug): on a CCTV-A approval the supervisor calls
`is_connected` and `start_streaming` on the media client, but class
`UdpClient` defines neither attribute, so in the source these calls raise
`AttributeError` and the media channel is never put into streaming mode;
the denial branch (log only, no media-channel call, state unchanged) does
match the claim. -/
theorem C6_bug :
    (NMAction.udpCall UdpMethod.is_connected) ∈
      (nmStep 3 (NMEvent.cctvARespEv okResponse)
        (⟨false, ⟨false, false, false⟩, false, 0⟩ : NMState)).2 ∧
    (NMAction.udpCall UdpMethod.start_streaming) ∈
      (nmStep 3 (NMEvent.cctvARespEv okResponse)
        (⟨false, ⟨false, false, false⟩, false, 0⟩ : NMState)).2 ∧
    udpDefined UdpMethod.is_connected = false ∧
    udpDefined UdpMethod.start_streaming = false ∧
    List.filter isUdpCallAction
        ((nmStep 3 (NMEvent.cctvARespEv deniedResponse)
          (⟨false, ⟨false, false, false⟩, false, 0⟩ : NMState)).2) = [] ∧
    (nmStep 3 (NMEvent.cctvARespEv deniedResponse)
        (⟨false, ⟨false, false, false⟩, false, 0⟩ : NMState)).1
      = (⟨false, ⟨false, false, false⟩, false, 0⟩ : NMState) := by
  decide

/-- C7 (code bug): a map request makes the supervisor call
`stop_streaming` on the media client, but `UdpClient` does not define it
(`AttributeError` in the source); moreover the receive loop has no
streaming gate — a valid `A`-datagram arriving after the map request still
produces a frame emission. -/
theorem C7_bug :
    (NMAction.udpCall UdpMethod.stop_streaming) ∈
      (nmStep 3 NMEvent.reqMapEv
        (⟨true, ⟨true, true, true⟩, false, 0⟩ : NMState)).2 ∧
    udpDefined UdpMethod.stop_streaming = false ∧
    processDatagram [ 124 ] utf8Stub imdecStub [ 65, 124, 120 ]
      = [ UdpEvent.emitFrameA ] := by
  decide

/-- C8 (code bug): `UdpClient` defines no `connection_status_changed`
signal — even though `NetworkManager._connect_signals` subscribes to one —
and neither `connect` (on either bind outcome) nor `disconnect` emits any
connection-status event. -/
theorem C8_bug :
    udpDefined UdpMethod.connection_status_changed = false ∧
    UdpMethod.connection_status_changed ∈ nmSubscribedUdpSignals ∧
    (∀ (bindOk : Bool) (s : UdpState),
      List.filter isStatusEvent ((udpConnect bindOk s).2.1) = []) ∧
    (∀ s : UdpState, List.filter isStatusEvent ((udpDisconnect s).2) = []) := by
  refine ⟨by decide, by decide, ?_, ?_⟩
  · intro bindOk s; cases bindOk <;> rfl
  · intro s; rfl

/-- C9 (confirmed): the batch handler re-emits exactly the objects of the
batch, one `object_detected` emission per object, in batch order. -/
theorem C9_thm (α : Type) (objects : List α) :
    handle_object_detected objects = objects ∧
    (handle_object_detected objects).length = objects.length := by
  have key : ∀ (l acc : List α),
      List.foldl (fun emitted obj => emitted ++ [ obj ]) acc l = acc ++ l := by
    intro l
    induction l with
    | nil => intro acc; simp
    | cons x xs ih =>
      intro acc
      simp only [List.foldl_cons]
      rw [ih]
      simp
  have h : handle_object_detected objects = objects := by
    unfold handle_object_detected
    simpa using key objects []
  exact ⟨h, by rw [h]⟩

/-- C10 (confirmed): one pass of the media receive loop exits exactly when
`is_running` is false; no exception ever escapes the body (receive errors
are caught and logged, and every datagram outcome continues the loop); and
`disconnect` is what clears `is_running`. -/
theorem C10_thm (sep : List Nat) (utf8 : List Nat → Option String)
    (imdec : List Nat → Option Unit) (b : Bool) (recv : RecvResult)
    (s : UdpState) :
    (receiveLoopStep sep utf8 imdec b recv = LoopOutcome.exited ↔ b = false) ∧
    receiveLoopStep sep utf8 imdec b recv ≠ LoopOutcome.crashed ∧
    receiveLoopStep sep utf8 imdec true RecvResult.err
      = LoopOutcome.continued [ UdpEvent.log LogLevel.error ] ∧
    ((udpDisconnect s).1).is_running = false := by
  refine ⟨?_, ?_, rfl, rfl⟩
  · cases b <;> cases recv <;> simp [receiveLoopStep]
  · cases b <;> cases recv <;> simp [receiveLoopStep]

/-- C10 (witness): with `is_running` false the loop pass exits, via
`C10_thm`. -/
theorem C10_w :
    receiveLoopStep [ 124 ] utf8Stub imdecStub false (RecvResult.ok [])
      = LoopOutcome.exited := by
  exact (C10_thm [ 124 ] utf8Stub imdecStub false (RecvResult.ok [])
    (⟨false, false, false⟩ : UdpState)).1.mpr rfl

end Atc
